import Mathlib

/-!
Shallow embedding of the decision logic of the `Yantra` claims-processing
repository: the fraud-risk scorers of
`app/agents/fraud_detection_agent.py` and the document-sufficiency /
RAG-lifecycle logic of `app/agents/dynamic_rag_orchestrator.py`.
External collaborators (BigQuery, ChromaDB, Vertex AI) are modelled as
explicit inputs; report strings are modelled as structured values carrying
exactly the data the source interpolates into them.
-/

deriving instance DecidableEq for Except

namespace Yantra

/-! ## Calendar dates (embedding of `datetime.strptime(_, "%Y-%m-%d")` and
`datetime` arithmetic used by the scorers) -/

/-- Gregorian calendar date, as produced by `datetime.strptime(s, "%Y-%m-%d")`. -/
structure Date where
  year : Nat
  month : Nat
  day : Nat
deriving DecidableEq, Repr

/-- Gregorian leap-year test. -/
def isLeapYear (y : Nat) : Bool :=
  (y % 4 == 0 && y % 100 != 0) || y % 400 == 0

/-- Number of days in month `m` of year `y`. -/
def daysInMonth (y m : Nat) : Nat :=
  if m = 2 then (if isLeapYear y then 29 else 28)
  else if m = 4 ∨ m = 6 ∨ m = 9 ∨ m = 11 then 30
  else 31

/-- Days in year `y` that precede the first day of month `m`. -/
def daysBeforeMonth (y m : Nat) : Nat :=
  (List.range (m - 1)).foldl (fun acc i => acc + daysInMonth y (i + 1)) 0

/-- Proleptic-Gregorian ordinal of a date (0001-01-01 has ordinal 1),
matching Python's `date.toordinal`. -/
def dateOrdinal (d : Date) : Nat :=
  let p := d.year - 1
  p * 365 + p / 4 - p / 100 + p / 400 + daysBeforeMonth d.year d.month + d.day

/-- Day of week with Monday = 0 .. Sunday = 6, matching Python's
`date.weekday()` (0001-01-01 was a Monday). -/
def weekday (d : Date) : Nat :=
  (dateOrdinal d + 6) % 7

/-- Split a character list at every `-`, as `str.split("-")` does. -/
def splitDash : List Char → List (List Char)
  | [] => [[]]
  | c :: cs =>
    if c = '-' then [] :: splitDash cs
    else
      match splitDash cs with
      | [] => [[c]]
      | g :: gs => (c :: g) :: gs

/-- Value of a decimal digit character. -/
def digitToNat? (c : Char) : Option Nat :=
  if c.isDigit then some (c.toNat - 48) else none

/-- Accumulating decimal reader. -/
def digitsToNatAux : List Char → Nat → Option Nat
  | [], acc => some acc
  | c :: cs, acc =>
    match digitToNat? c with
    | none => none
    | some d => digitsToNatAux cs (acc * 10 + d)

/-- Decimal value of a nonempty all-digit character list. -/
def digitsToNat? : List Char → Option Nat
  | [] => none
  | cs => digitsToNatAux cs 0

/-- Embedding of `datetime.strptime(s, "%Y-%m-%d")`: a four-digit year,
a one- or two-digit month and day, separated by `-`, forming a valid
calendar date; any other string raises `ValueError` (here: `none`). -/
def parseDate (s : String) : Option Date :=
  match splitDash s.data with
  | [ys, ms, ds] =>
    match digitsToNat? ys, digitsToNat? ms, digitsToNat? ds with
    | some y, some m, some d =>
      if ys.length = 4 ∧ ms.length ≤ 2 ∧ ds.length ≤ 2 ∧
          1 ≤ m ∧ m ≤ 12 ∧ 1 ≤ d ∧ d ≤ daysInMonth y m
      then some ⟨y, m, d⟩ else none
    | _, _, _ => none
  | _ => none

/-- Python's two-argument `min` on numbers, written out so that concrete
scores evaluate. -/
def ratMin (a b : ℚ) : ℚ := if a ≤ b then a else b

theorem ratMin_eq_min (a b : ℚ) : ratMin a b = min a b := by
  simp [ratMin, min_def]

/-! ## Shared risk-tier mapping

All four scorers repeat the same thresholds:
`>= 0.70` HIGH, `>= 0.40` MEDIUM, `>= 0.15` LOW, else MINIMAL. -/

/-- Discrete risk tier. -/
inductive RiskLevel
  | MINIMAL
  | LOW
  | MEDIUM
  | HIGH
deriving DecidableEq, Repr

/-- Score-to-tier mapping shared by every scorer in
`fraud_detection_agent.py`. -/
def riskLevelOf (s : ℚ) : RiskLevel :=
  if 7/10 ≤ s then .HIGH
  else if 2/5 ≤ s then .MEDIUM
  else if 3/20 ≤ s then .LOW
  else .MINIMAL

/-! ## Timing scorer (`analyze_incident_timing`) -/

/-- Entries appended to `timing_analysis["timing_indicators"]`, carrying the
values the source interpolates into the message strings. -/
inductive TimingIndicator
  | reportedBeforeIncident
  | sameDayReporting
  | lateReporting (delay : Int)
  | delayedReporting (delay : Int)
  | incidentBeforePolicyEffective
  | earlyClaim (daysAfterEffective : Int)
  | immediateClaim (daysAfterEffective : Int)
deriving DecidableEq, Repr

/-- Entries appended to `timing_analysis["risk_factors"]`. -/
inductive TimingRiskFactor
  | weekendIncident
  | mondayMorningReporting
  | firstOfMonth
  | decemberIncident
deriving DecidableEq, Repr

/-- Reporting-delay block of `analyze_incident_timing` (lines 291-302):
indicator list and score contribution. -/
def delayContribution (delay : Int) : List TimingIndicator × ℚ :=
  if delay < 0 then ([.reportedBeforeIncident], 4/5)
  else if delay = 0 then ([.sameDayReporting], 1/10)
  else if delay > 30 then ([.lateReporting delay], 1/5)
  else if delay > 14 then ([.delayedReporting delay], 1/10)
  else ([], 0)

/-- Policy-timing block of `analyze_incident_timing` (lines 305-317).
The source tests `days_after_effective <= 30` before `<= 7`, so the
`immediateClaim` arm is kept exactly where the source has it. -/
def policyContribution (daysAfterEffective : Int) : List TimingIndicator × ℚ :=
  if daysAfterEffective < 0 then ([.incidentBeforePolicyEffective], 9/10)
  else if daysAfterEffective ≤ 30 then ([.earlyClaim daysAfterEffective], 1/5)
  else if daysAfterEffective ≤ 7 then ([.immediateClaim daysAfterEffective], 3/10)
  else ([], 0)

/-- Weekend / Monday / first-of-month / December block (lines 320-339):
each test appends a risk factor and adds its constant. -/
def riskFactorContribution (incident reported : Date) (delay : Int) :
    List TimingRiskFactor × ℚ :=
  ((if weekday incident ≥ 5 then [TimingRiskFactor.weekendIncident] else [])
      ++ (if weekday reported = 0 ∧ delay ≥ 3 then [TimingRiskFactor.mondayMorningReporting] else [])
      ++ (if incident.day = 1 then [TimingRiskFactor.firstOfMonth] else [])
      ++ (if incident.month = 12 then [TimingRiskFactor.decemberIncident] else []),
    (if weekday incident ≥ 5 then (1/20 : ℚ) else 0)
      + (if weekday reported = 0 ∧ delay ≥ 3 then (1/20 : ℚ) else 0)
      + (if incident.day = 1 then (1/20 : ℚ) else 0)
      + (if incident.month = 12 then (3/100 : ℚ) else 0))

/-- Successful result of `analyze_incident_timing`: the structured content
of the report string. -/
structure TimingAssessment where
  reportingDelay : Int
  indicators : List TimingIndicator
  riskFactors : List TimingRiskFactor
  score : ℚ
  riskLevel : RiskLevel
deriving DecidableEq, Repr

/-- Policy-timing contribution including the `if policy_effective_date:`
guard of line 305. -/
def policyPart (incident : Date) (policyEffective : Option Date) :
    List TimingIndicator × ℚ :=
  match policyEffective with
  | none => ([], 0)
  | some pol => policyContribution ((dateOrdinal incident : Int) - (dateOrdinal pol : Int))

/-- Core of `analyze_incident_timing` on already-parsed dates: base score
0.05, additive penalty blocks, cap at 1.0, then the shared tier mapping. -/
def assessTiming (incident reported : Date) (policyEffective : Option Date) :
    TimingAssessment :=
  let delay : Int := (dateOrdinal reported : Int) - (dateOrdinal incident : Int)
  let score := ratMin (1/20 + (delayContribution delay).2 + (policyPart incident policyEffective).2
      + (riskFactorContribution incident reported delay).2) 1
  { reportingDelay := delay
    indicators := (delayContribution delay).1 ++ (policyPart incident policyEffective).1
    riskFactors := (riskFactorContribution incident reported delay).1
    score := score
    riskLevel := riskLevelOf score }

/-- Error result of `analyze_incident_timing`: a `ValueError` from
`strptime` is caught and rendered as the "Invalid date format" report
carrying the expected format. -/
inductive TimingError
  | invalidFormat (expectedFormat : String)
deriving DecidableEq, Repr

/-- Expected-format explanation printed by the error branch of
`analyze_incident_timing`. -/
def expectedDateFormat : String := "YYYY-MM-DD"

/-- Embedding of `analyze_incident_timing(incident_date, reported_date,
policy_effective_date)`: parse the three dates (a failure anywhere is the
caught `ValueError`), then score. -/
def analyze_incident_timing (incident_date reported_date : String)
    (policy_effective_date : Option String) :
    Except TimingError TimingAssessment :=
  match parseDate incident_date with
  | none => .error (.invalidFormat expectedDateFormat)
  | some inc =>
    match parseDate reported_date with
    | none => .error (.invalidFormat expectedDateFormat)
    | some rep =>
      match policy_effective_date with
      | none => .ok (assessTiming inc rep none)
      | some ps =>
        match parseDate ps with
        | none => .error (.invalidFormat expectedDateFormat)
        | some pol => .ok (assessTiming inc rep (some pol))

/-! ## History scorer (`check_claimant_history`)

The BigQuery row set is the scorer's input: each row carries the columns
the analysis loop reads. -/

/-- One historical claim row as selected by the query in
`check_claimant_history` (`days_ago` and `reporting_delay` are computed by
`DATE_DIFF` in SQL and arrive as columns). -/
structure HistClaim where
  days_ago : Nat
  reporting_delay : Option Int
  estimated_damage : Option ℚ
  claim_type : Option String
  city : String
  state : String
deriving DecidableEq, Repr

/-- The `f"{claim.city}, {claim.state}"` location key. -/
def HistClaim.location (c : HistClaim) : String := c.city ++ ", " ++ c.state

/-- Claims with `days_ago <= 30`. -/
def recentClaims30d (cs : List HistClaim) : Nat :=
  (cs.filter (fun c => c.days_ago ≤ 30)).length

/-- Claims with `days_ago <= 90`. -/
def recentClaims90d (cs : List HistClaim) : Nat :=
  (cs.filter (fun c => c.days_ago ≤ 90)).length

/-- The `geographic_spread` set: distinct location strings. -/
def geographicSpread (cs : List HistClaim) : List String :=
  (cs.map HistClaim.location).dedup

/-- `claim.claim_type or "unknown"`. -/
def claimTypeName (c : HistClaim) : String := c.claim_type.getD "unknown"

/-- Occurrences of claim-type `t` among the rows (the `claim_types` tally). -/
def claimTypeCount (cs : List HistClaim) (t : String) : Nat :=
  (cs.filter (fun c => claimTypeName c = t)).length

/-- Count of the most common claim type, i.e. `most_common_type[1]` of
`max(claim_types.items(), key=...)`. -/
def maxClaimTypeCount (cs : List HistClaim) : Nat :=
  ((cs.map claimTypeName).map (claimTypeCount cs)).foldl max 0

/-- `total_damage`: sum over rows whose `estimated_damage` is truthy
(`None` and `0.0` both contribute nothing). -/
def totalDamage (cs : List HistClaim) : ℚ :=
  (cs.filterMap (·.estimated_damage)).foldl (· + ·) 0

/-- `avg_claim_amount = total_damage / len(results)` (the division is by the
total row count, not the count of rows carrying an amount). -/
def avgClaimAmount (cs : List HistClaim) : ℚ :=
  if cs.length = 0 then 0 else totalDamage cs / cs.length

/-- The `reporting_delays` list (rows whose delay column is not NULL). -/
def reportingDelays (cs : List HistClaim) : List Int :=
  cs.filterMap (·.reporting_delay)

/-- `avg_reporting_delay`, left at its default 0 when no row has a delay. -/
def avgReportingDelay (cs : List HistClaim) : ℚ :=
  if (reportingDelays cs).length = 0 then 0
  else ((reportingDelays cs).foldl (· + ·) 0 : Int) / ((reportingDelays cs).length : ℚ)

/-- Entries of `analysis_results["fraud_indicators"]`, carrying the values
the source interpolates. -/
inductive HistoryIndicator
  | highFrequency
  | moderateFrequency
  | lateReportingPattern (avgDelay : ℚ)
  | immediateReportingPattern
  | geographicClustering
  | highValueClaims (avgAmount : ℚ)
  | repetitiveClaimType (count : Nat)
deriving DecidableEq, Repr

/-- Frequency block (lines 168-173). -/
def historyFrequency (cs : List HistClaim) : List HistoryIndicator × ℚ :=
  if recentClaims30d cs > 2 then ([.highFrequency], 3/10)
  else if recentClaims90d cs > 4 then ([.moderateFrequency], 1/5)
  else ([], 0)

/-- Reporting-pattern block (lines 176-181). -/
def historyDelayPattern (cs : List HistClaim) : List HistoryIndicator × ℚ :=
  if avgReportingDelay cs > 25 then ([.lateReportingPattern (avgReportingDelay cs)], 3/20)
  else if avgReportingDelay cs < 1 then ([.immediateReportingPattern], 1/10)
  else ([], 0)

/-- Geographic-clustering block (lines 184-186): fires only with a single
location AND strictly more than 3 total claims. -/
def historyGeoClustering (cs : List HistClaim) : List HistoryIndicator × ℚ :=
  if (geographicSpread cs).length = 1 ∧ cs.length > 3 then ([.geographicClustering], 1/5)
  else ([], 0)

/-- High-value block (lines 189-191). -/
def historyHighValue (cs : List HistClaim) : List HistoryIndicator × ℚ :=
  if avgClaimAmount cs > 15000 then ([.highValueClaims (avgClaimAmount cs)], 1/10)
  else ([], 0)

/-- Repetitive-type block (lines 194-197): most common type covers at least
80% of all claims. -/
def historyRepetitiveType (cs : List HistClaim) : List HistoryIndicator × ℚ :=
  if (maxClaimTypeCount cs : ℚ) ≥ (cs.length : ℚ) * (8/10) then
    ([.repetitiveClaimType (maxClaimTypeCount cs)], 3/20)
  else ([], 0)

/-- Structured content of the `check_claimant_history` report. -/
structure HistoryAssessment where
  totalClaims : Nat
  fraudIndicators : List HistoryIndicator
  score : ℚ
  riskLevel : RiskLevel
deriving DecidableEq, Repr

/-- Embedding of `check_claimant_history` on the fetched rows: the empty
result set takes the early "CLEAN" return with score 0.05; otherwise base
0.05 plus the five indicator blocks, capped at 1.0. -/
def check_claimant_history (cs : List HistClaim) : HistoryAssessment :=
  if cs.length = 0 then
    { totalClaims := 0, fraudIndicators := [], score := 1/20, riskLevel := .MINIMAL }
  else
    let score := ratMin (1/20 + (historyFrequency cs).2 + (historyDelayPattern cs).2
        + (historyGeoClustering cs).2 + (historyHighValue cs).2 + (historyRepetitiveType cs).2) 1
    { totalClaims := cs.length
      fraudIndicators := (historyFrequency cs).1 ++ (historyDelayPattern cs).1
        ++ (historyGeoClustering cs).1 ++ (historyHighValue cs).1 ++ (historyRepetitiveType cs).1
      score := score
      riskLevel := riskLevelOf score }

/-! ## Network scorer (`check_network_connections`)

The three BigQuery result sets and the two simulated checks are the
scorer's inputs. -/

/-- One row of the geographic-clustering query (`GROUP BY city, state`). -/
structure LocationCluster where
  city : String
  state : String
  claim_count : Nat
deriving DecidableEq, Repr

/-- One row of the temporal-clustering query (`HAVING COUNT(*) > 1`). -/
structure DateCluster where
  incident_date : String
  claims_same_date : Nat
deriving DecidableEq, Repr

/-- Inputs of `check_network_connections`: `phoneMatches = some n` means a
claimant phone was supplied and the cross-policy query returned `n` rows;
`none` means no phone was supplied. -/
structure NetworkInput where
  phoneMatches : Option Nat
  providerInfo : Option String
  locationClusters : List LocationCluster
  dateClusters : List DateCluster
deriving DecidableEq, Repr

/-- Kinds of entries of `network_analysis["connections_found"]`. -/
inductive ConnectionType
  | phone_number
  | service_provider
  | geographic_clustering
  | temporal_clustering
  | potential_household
deriving DecidableEq, Repr

/-- Phone block (lines 432-470): connection entry and score contribution. -/
def phoneBlock (pm : Option Nat) : List (ConnectionType × Nat) × ℚ :=
  match pm with
  | none => ([], 0)
  | some n =>
    if n ≠ 0 then
      ([(.phone_number, n)],
        if n > 5 then 2/5 else if n > 2 then 1/5 else 0)
    else ([], 0)

/-- Simulated provider block (lines 473-484): `provider_connections = 3`,
and `3 > 10` never holds, so no score is added. -/
def providerBlock (pi : Option String) : List (ConnectionType × Nat) × ℚ :=
  match pi with
  | none => ([], 0)
  | some _ =>
    let provider_connections := 3
    ([(.service_provider, provider_connections)],
      if provider_connections > 10 then 3/10 else 0)

/-- Geographic block (lines 505-516): one connection per location with more
than one claim, +0.15 per location with more than three. -/
def geoBlock (ls : List LocationCluster) : List (ConnectionType × Nat) × ℚ :=
  ((ls.filter (fun l => l.claim_count > 1)).map (fun l => (.geographic_clustering, l.claim_count)),
    ((ls.filter (fun l => l.claim_count > 3)).length : ℚ) * (3/20))

/-- Temporal block (lines 532-540): every same-date cluster adds a
connection and +0.20. -/
def temporalBlock (ds : List DateCluster) : List (ConnectionType × Nat) × ℚ :=
  (ds.map (fun d => (.temporal_clustering, d.claims_same_date)),
    (ds.length : ℚ) * (1/5))

/-- Simulated household block (lines 543-552): when a phone was supplied,
`similar_phones = 2 > 0` always adds a 2-count connection and +0.10. -/
def householdBlock (pm : Option Nat) : List (ConnectionType × Nat) × ℚ :=
  match pm with
  | none => ([], 0)
  | some _ =>
    let similar_phones := 2
    if similar_phones > 0 then ([(.potential_household, similar_phones)], 1/10)
    else ([], 0)

/-- Structured content of the `check_network_connections` report. -/
structure NetworkAssessment where
  connections : List (ConnectionType × Nat)
  totalConnections : Nat
  score : ℚ
  riskLevel : RiskLevel
deriving DecidableEq, Repr

/-- `network_analysis["connections_found"]`. -/
def connectionsFound (inp : NetworkInput) : List (ConnectionType × Nat) :=
  (phoneBlock inp.phoneMatches).1 ++ (providerBlock inp.providerInfo).1
    ++ (geoBlock inp.locationClusters).1 ++ (temporalBlock inp.dateClusters).1
    ++ (householdBlock inp.phoneMatches).1

/-- `total_connections = sum(conn["count"] for conn in connections_found)`. -/
def totalConnectionCount (inp : NetworkInput) : Nat :=
  ((connectionsFound inp).map Prod.snd).foldl (· + ·) 0

/-- Embedding of `check_network_connections`: base score 0.0, the five
blocks, the `min(total_connections * 0.02, 0.2)` bonus, cap at 1.0. -/
def check_network_connections (inp : NetworkInput) : NetworkAssessment :=
  let score := ratMin (0 + (phoneBlock inp.phoneMatches).2 + (providerBlock inp.providerInfo).2
      + (geoBlock inp.locationClusters).2 + (temporalBlock inp.dateClusters).2
      + (householdBlock inp.phoneMatches).2
      + ratMin ((totalConnectionCount inp : ℚ) * (1/50)) (1/5)) 1
  { connections := connectionsFound inp
    totalConnections := totalConnectionCount inp
    score := score
    riskLevel := riskLevelOf score }

/-! ## ML-style scorer (`calculate_ml_fraud_score`) -/

/-- The `claim_data` dictionary fields the scorer reads; `none` models a
missing key, and Python's truthiness test on date strings means the empty
string behaves like a missing key. -/
structure ClaimData where
  claim_id : Option String
  policy_id : Option String
  incident_date : Option String
  reported_date : Option String
  estimated_damage : Option ℚ
  claimant_age : Option Int
  claim_type : Option String
  description : Option String
deriving DecidableEq, Repr

/-- ASCII lowering of a string, as `str.lower()` acts on the ASCII claim
types. -/
def lowerStr (s : String) : String := ⟨s.data.map Char.toLower⟩

/-- Python truthiness of an optional string: present and nonempty. -/
def truthyStr (o : Option String) : Option String :=
  match o with
  | some s => if s = "" then none else some s
  | none => none

/-- The fixed 7-entry feature vector. -/
structure MLFeatures where
  estimated_damage : ℚ
  claimant_age : Int
  reporting_delay : Int
  description_length : Nat
  weekend_incident : Nat
  high_damage : Nat
  claim_type_encoded : Nat
deriving DecidableEq, Repr

/-- The `claim_type_map` encoding (applied to the lower-cased type). -/
def claimTypeEncode (t : String) : Nat :=
  if t = "collision" then 1
  else if t = "comprehensive" then 2
  else if t = "liability" then 3
  else if t = "fire" then 4
  else if t = "theft" then 5
  else if t = "vandalism" then 6
  else 0

/-- Feature extraction of `calculate_ml_fraud_score` (lines 627-657):
`none` models the `ValueError` a malformed supplied date raises (caught by
the error branch). The reporting delay is computed only when both dates are
truthy, and the weekend flag parses the incident date on its own. -/
def extractMLFeatures (cd : ClaimData) : Option MLFeatures := do
  let damage := cd.estimated_damage.getD 0
  let delay : Int ←
    match truthyStr cd.incident_date, truthyStr cd.reported_date with
    | some i, some r => do
      let di ← parseDate i
      let dr ← parseDate r
      pure ((dateOrdinal dr : Int) - (dateOrdinal di : Int))
    | _, _ => pure 0
  let weekend : Nat ←
    match truthyStr cd.incident_date with
    | some i => do
      let di ← parseDate i
      pure (if weekday di ≥ 5 then 1 else 0)
    | none => pure 0
  pure
    { estimated_damage := damage
      claimant_age := cd.claimant_age.getD 35
      reporting_delay := delay
      description_length := (cd.description.getD "").length
      weekend_incident := weekend
      high_damage := if damage > 10000 then 1 else 0
      claim_type_encoded := claimTypeEncode (lowerStr (cd.claim_type.getD "other")) }

/-- The fixed model weights (lines 661-669). -/
def mlWeightedSum (f : MLFeatures) : ℚ :=
  f.estimated_damage * (2/100000)
    + (f.claimant_age : ℚ) * (-(1/100))
    + (f.reporting_delay : ℚ) * (2/100)
    + (f.description_length : ℚ) * (-(1/1000))
    + (f.weekend_incident : ℚ) * (15/100)
    + (f.high_damage : ℚ) * (25/100)
    + (f.claim_type_encoded : ℚ) * (5/100)

/-- `fraud_probability = 1 / (1 + exp(-weighted_score))`. -/
noncomputable def fraudProbability (w : ℚ) : ℝ :=
  1 / (1 + Real.exp (-(w : ℝ)))

/-- `fraud_score = 0.05 + fraud_probability * 0.9`. -/
noncomputable def mlScoreOfFeatures (f : MLFeatures) : ℝ :=
  1/20 + fraudProbability (mlWeightedSum f) * (9/10)

/-- Embedding of `calculate_ml_fraud_score`: feature extraction then the
logistic rescaling; `none` is the caught-exception error report. -/
noncomputable def calculate_ml_fraud_score (cd : ClaimData) : Option ℝ :=
  (extractMLFeatures cd).map mlScoreOfFeatures

/-! ## Document sufficiency evaluator (`DynamicRAGManager.should_create_rag`)

The BigQuery rows (already filtered to `processing_status = 'available'`)
are the evaluator's input. The per-document aggregation loop of the source
is embedded as a fold; the threshold cascade follows it verbatim. -/

/-- One `claim_documents` row as read by the evaluator. -/
structure ClaimDocument where
  document_type : Option String
  document_size_mb : Option ℚ
deriving DecidableEq, Repr

/-- `doc.document_type or "unknown"`. -/
def docType (d : ClaimDocument) : String := d.document_type.getD "unknown"

/-- `doc.document_size_mb or 0`. -/
def docSize (d : ClaimDocument) : ℚ := d.document_size_mb.getD 0

/-- Python-set insertion: append when absent. -/
def insertType (ts : List String) (t : String) : List String :=
  if t ∈ ts then ts else ts ++ [t]

/-- The `document_types` set built by the aggregation loop. -/
def docTypesAgg (docs : List ClaimDocument) : List String :=
  docs.foldl (fun ts d => insertType ts (docType d)) []

/-- The `total_size_mb` accumulator of the aggregation loop. -/
def totalSizeAgg (docs : List ClaimDocument) : ℚ :=
  docs.foldl (fun s d => s + docSize d) 0

/-- The three privileged `required_types` of `rag_trigger_thresholds`. -/
def requiredTypes : List String := ["police_report", "estimate", "photos"]

/-- `sum(1 for req_type in required_types if req_type in document_types)`. -/
def requiredTypesFound (docs : List ClaimDocument) : Nat :=
  (requiredTypes.filter (fun t => t ∈ docTypesAgg docs)).length

/-- The `reason` strings of `should_create_rag`, as structured values
carrying exactly what the source interpolates. -/
inductive RagReason
  | noDocuments
  | needDocuments (required observed : Nat)
  | needTypes (required observed : Nat)
  | needRequiredTypes (required : Nat) (types : List String)
  | needSize (requiredMb observedMb : ℚ)
  | allMet
deriving DecidableEq, Repr

/-- The analysis dictionary returned alongside the decision. -/
structure DocAnalysis where
  total_documents : Nat
  document_types : List String
  total_size_mb : ℚ
  reason : RagReason
deriving DecidableEq, Repr

/-- Embedding of `DynamicRAGManager.should_create_rag` (lines 99-147):
empty result set short-circuits, then the four thresholds are tested in
order (count, type diversity, privileged types, size). -/
def should_create_rag (docs : List ClaimDocument) : Bool × DocAnalysis :=
  if docs.length = 0 then
    (false, { total_documents := 0, document_types := [], total_size_mb := 0,
              reason := .noDocuments })
  else
    let n := docs.length
    let types := docTypesAgg docs
    let size := totalSizeAgg docs
    if n < 3 then
      (false, ⟨n, types, size, .needDocuments 3 n⟩)
    else if types.length < 2 then
      (false, ⟨n, types, size, .needTypes 2 types.length⟩)
    else if requiredTypesFound docs < 2 then
      (false, ⟨n, types, size, .needRequiredTypes 2 requiredTypes⟩)
    else if size < 1 then
      (false, ⟨n, types, size, .needSize 1 size⟩)
    else
      (true, ⟨n, types, size, .allMet⟩)

/-! ## RAG engine lifecycle (`create_dynamic_rag_engine`, `query_rag_engine`)

Every module-level tool function opens with `rag_manager =
DynamicRAGManager()`, whose constructor sets `self.active_rags = {}`; the
registry a successful creation writes into lives on that throwaway local
object. The embedding keeps the constructor and the registry faithfully and
tracks, as the observable side effect, how many index builds were
performed. -/

/-- Registered handle data (`rag_info`). -/
structure RagInfo where
  engine_id : String
  claim_id : String
  document_count : Nat
deriving DecidableEq, Repr

/-- The `DynamicRAGManager` state the tool functions construct. -/
structure DynamicRAGManager where
  active_rags : List (String × RagInfo)
deriving DecidableEq, Repr

/-- `DynamicRAGManager.__init__` (lines 52-58): the registry starts empty. -/
def DynamicRAGManager.mkFresh : DynamicRAGManager := ⟨[]⟩

/-- External side effects performed so far: number of RAG index builds
(ChromaDB collection creations with document ingestion). -/
structure OrchestratorWorld where
  enginesBuilt : Nat
deriving DecidableEq, Repr

/-- Result of `create_dynamic_rag_engine`. -/
inductive CreateResult
  | alreadyActive (info : RagInfo)
  | notReady (reason : RagReason)
  | created (info : RagInfo)
deriving DecidableEq, Repr

/-- Embedding of `create_dynamic_rag_engine(claim_id)` (lines 218-388) with
the claim's available documents as explicit input: construct a fresh
manager, return early if the claim is registered there, verify readiness,
else build and register the engine on the local manager (the build is the
side effect counted in the world). -/
def create_dynamic_rag_engine (w : OrchestratorWorld) (claim_id : String)
    (docs : List ClaimDocument) : OrchestratorWorld × CreateResult :=
  let rag_manager := DynamicRAGManager.mkFresh
  match rag_manager.active_rags.lookup claim_id with
  | some info => (w, .alreadyActive info)
  | none =>
    let (should_create, analysis) := should_create_rag docs
    if should_create then
      let info : RagInfo :=
        { engine_id := "rag_" ++ claim_id, claim_id := claim_id,
          document_count := docs.length }
      ({ enginesBuilt := w.enginesBuilt + 1 }, .created info)
    else
      (w, .notReady analysis.reason)

/-- Result of `query_rag_engine`. -/
inductive QueryResult
  | notFound (claim_id question : String)
  | answered (claim_id question : String)
deriving DecidableEq, Repr

/-- Embedding of `query_rag_engine(claim_id, question)` (lines 391-507):
whatever external side effects have happened (`w`), the call constructs a
fresh manager and fails with the NOT FOUND report when the claim is not in
that manager's registry; the ChromaDB retrieval path is external. -/
def query_rag_engine (w : OrchestratorWorld) (claim_id question : String) : QueryResult :=
  let rag_manager := DynamicRAGManager.mkFresh
  match w, rag_manager.active_rags.lookup claim_id with
  | _, none => .notFound claim_id question
  | _, some _ => .answered claim_id question

/-- A sequence of sequential `create_dynamic_rag_engine` calls, threading
the side-effect world. -/
def runCreates (calls : List (String × List ClaimDocument)) : OrchestratorWorld :=
  calls.foldl (fun w c => (create_dynamic_rag_engine w c.1 c.2).1) ⟨0⟩

/-! ## Spec-side definitions for the sufficiency refinement claims

These follow the wording of spec §4.1 (and its amendment forced by the
source's messages); they are compared against `should_create_rag`. -/

/-- The four sufficiency thresholds, in the spec's fixed order. -/
inductive ThresholdKind
  | documentCount
  | typeDiversity
  | privilegedTypes
  | totalSize
deriving DecidableEq, Repr

/-- Spec §4.1, stated declaratively: first unmet threshold in the order
document count, type diversity, privileged types, total size. -/
def specFirstUnmet (docs : List ClaimDocument) : Option ThresholdKind :=
  if docs.length < 3 then some .documentCount
  else if ((docs.map docType).dedup).length < 2 then some .typeDiversity
  else if (requiredTypes.filter (fun t => t ∈ docs.map docType)).length < 2 then some .privilegedTypes
  else if (docs.map docSize).sum < 1 then some .totalSize
  else none

/-- Which threshold a produced reason names. -/
def reasonThresholdKind : RagReason → Option ThresholdKind
  | .noDocuments => some .documentCount
  | .needDocuments _ _ => some .documentCount
  | .needTypes _ _ => some .typeDiversity
  | .needRequiredTypes _ _ => some .privilegedTypes
  | .needSize _ _ => some .totalSize
  | .allMet => none

/-- Spec §4.1 wording: the failure reason carries both the observed and the
required value of the unmet threshold. -/
def reasonHasObservedAndRequired : RagReason → Bool
  | .needDocuments _ _ => true
  | .needTypes _ _ => true
  | .needSize _ _ => true
  | _ => false

/-- The amended reason policy matching the source's messages: first unmet
threshold in the fixed order, observed vs required values in the count,
diversity and size reasons, only the requirement in the privileged-types
reason, and a distinct no-documents reason for an empty record set. -/
def specExpectedReason (docs : List ClaimDocument) : RagReason :=
  if docs.length = 0 then .noDocuments
  else if docs.length < 3 then .needDocuments 3 docs.length
  else if ((docs.map docType).dedup).length < 2 then
    .needTypes 2 ((docs.map docType).dedup).length
  else if (requiredTypes.filter (fun t => t ∈ docs.map docType)).length < 2 then
    .needRequiredTypes 2 requiredTypes
  else if (docs.map docSize).sum < 1 then .needSize 1 ((docs.map docSize).sum)
  else .allMet

/-! ## Concrete inputs used by the closed theorems -/

/-- A network input with no phone, no provider and no cluster rows. -/
def emptyNetworkInput : NetworkInput :=
  { phoneMatches := none, providerInfo := none, locationClusters := [], dateClusters := [] }

/-- A document set meeting all four sufficiency thresholds. -/
def sufficientDocs : List ClaimDocument :=
  [⟨some "police_report", some (1/2)⟩, ⟨some "estimate", some (2/5)⟩,
    ⟨some "photos", some (3/10)⟩]

/-- A document set passing count and diversity but failing the
privileged-types threshold. -/
def privilegedFailDocs : List ClaimDocument :=
  [⟨some "medical_record", some 1⟩, ⟨some "medical_record", some 1⟩,
    ⟨some "audio", some 1⟩]

/-- Three historical claims, all within the last 30 days, all in the same
city, with unremarkable delays, amounts and mixed claim types. -/
def threeClaimsSameCity : List HistClaim :=
  [{ days_ago := 10, reporting_delay := some 5, estimated_damage := some 1000,
     claim_type := some "collision", city := "Springfield", state := "IL" },
   { days_ago := 12, reporting_delay := some 5, estimated_damage := some 1200,
     claim_type := some "fire", city := "Springfield", state := "IL" },
   { days_ago := 20, reporting_delay := some 5, estimated_damage := some 900,
     claim_type := some "theft", city := "Springfield", state := "IL" }]

/-- Claim data for the ML scorer. -/
def mlClaimA : ClaimData :=
  { claim_id := some "CLM-1", policy_id := some "POL-1",
    incident_date := some "2025-03-08", reported_date := some "2025-03-10",
    estimated_damage := some 12000, claimant_age := some 30,
    claim_type := some "collision", description := some "Rear-end collision on highway" }

/-- The same feature-relevant fields as `mlClaimA` under different claim
and policy identifiers. -/
def mlClaimB : ClaimData :=
  { claim_id := some "CLM-2", policy_id := some "POL-9",
    incident_date := some "2025-03-08", reported_date := some "2025-03-10",
    estimated_damage := some 12000, claimant_age := some 30,
    claim_type := some "collision", description := some "Rear-end collision on highway" }

/-! ## Basic lemmas about the score blocks -/

theorem delayContribution_snd_nonneg (d : Int) : 0 ≤ (delayContribution d).2 := by
  simp only [delayContribution]
  split_ifs <;> norm_num

theorem policyContribution_snd_nonneg (d : Int) : 0 ≤ (policyContribution d).2 := by
  simp only [policyContribution]
  split_ifs <;> norm_num

theorem policyPart_snd_nonneg (inc : Date) (p : Option Date) : 0 ≤ (policyPart inc p).2 := by
  cases p with
  | none => norm_num [policyPart]
  | some pol => simpa [policyPart] using policyContribution_snd_nonneg _

theorem riskFactorContribution_snd_nonneg (inc rep : Date) (d : Int) :
    0 ≤ (riskFactorContribution inc rep d).2 := by
  simp only [riskFactorContribution]
  split_ifs <;> norm_num

/-- The shared tier mapping sends any score at or above 0.70 to HIGH. -/
theorem riskLevelOf_eq_HIGH {s : ℚ} (h : 7/10 ≤ s) : riskLevelOf s = .HIGH := by
  simp [riskLevelOf, h]

theorem assessTiming_score_bounds (inc rep : Date) (pol : Option Date) :
    1/20 ≤ (assessTiming inc rep pol).score ∧ (assessTiming inc rep pol).score ≤ 1 := by
  have h1 := delayContribution_snd_nonneg ((dateOrdinal rep : Int) - (dateOrdinal inc : Int))
  have h2 := policyPart_snd_nonneg inc pol
  have h3 := riskFactorContribution_snd_nonneg inc rep ((dateOrdinal rep : Int) - (dateOrdinal inc : Int))
  simp only [assessTiming, ratMin_eq_min]
  exact ⟨le_min (by linarith) (by norm_num), min_le_right _ _⟩

theorem historyFrequency_snd_nonneg (cs : List HistClaim) : 0 ≤ (historyFrequency cs).2 := by
  simp only [historyFrequency]
  split_ifs <;> norm_num

theorem historyDelayPattern_snd_nonneg (cs : List HistClaim) : 0 ≤ (historyDelayPattern cs).2 := by
  simp only [historyDelayPattern]
  split_ifs <;> norm_num

theorem historyGeoClustering_snd_nonneg (cs : List HistClaim) : 0 ≤ (historyGeoClustering cs).2 := by
  simp only [historyGeoClustering]
  split_ifs <;> norm_num

theorem historyHighValue_snd_nonneg (cs : List HistClaim) : 0 ≤ (historyHighValue cs).2 := by
  simp only [historyHighValue]
  split_ifs <;> norm_num

theorem historyRepetitiveType_snd_nonneg (cs : List HistClaim) : 0 ≤ (historyRepetitiveType cs).2 := by
  simp only [historyRepetitiveType]
  split_ifs <;> norm_num

theorem check_claimant_history_score_bounds (cs : List HistClaim) :
    1/20 ≤ (check_claimant_history cs).score ∧ (check_claimant_history cs).score ≤ 1 := by
  rcases eq_or_ne cs.length 0 with h | h
  · simp only [check_claimant_history, if_pos h]
    norm_num
  · have h1 := historyFrequency_snd_nonneg cs
    have h2 := historyDelayPattern_snd_nonneg cs
    have h3 := historyGeoClustering_snd_nonneg cs
    have h4 := historyHighValue_snd_nonneg cs
    have h5 := historyRepetitiveType_snd_nonneg cs
    simp only [check_claimant_history, if_neg h, ratMin_eq_min]
    exact ⟨le_min (by linarith) (by norm_num), min_le_right _ _⟩

theorem phoneBlock_snd_nonneg (pm : Option Nat) : 0 ≤ (phoneBlock pm).2 := by
  cases pm with
  | none => norm_num [phoneBlock]
  | some n =>
    simp only [phoneBlock]
    split_ifs <;> norm_num

theorem providerBlock_snd_nonneg (pi : Option String) : 0 ≤ (providerBlock pi).2 := by
  cases pi <;> norm_num [providerBlock]

theorem geoBlock_snd_nonneg (ls : List LocationCluster) : 0 ≤ (geoBlock ls).2 := by
  simp only [geoBlock]
  positivity

theorem temporalBlock_snd_nonneg (ds : List DateCluster) : 0 ≤ (temporalBlock ds).2 := by
  simp only [temporalBlock]
  positivity

theorem householdBlock_snd_nonneg (pm : Option Nat) : 0 ≤ (householdBlock pm).2 := by
  cases pm <;> norm_num [householdBlock]

theorem check_network_connections_score_bounds (inp : NetworkInput) :
    0 ≤ (check_network_connections inp).score ∧ (check_network_connections inp).score ≤ 1 := by
  have h1 := phoneBlock_snd_nonneg inp.phoneMatches
  have h2 := providerBlock_snd_nonneg inp.providerInfo
  have h3 := geoBlock_snd_nonneg inp.locationClusters
  have h4 := temporalBlock_snd_nonneg inp.dateClusters
  have h5 := householdBlock_snd_nonneg inp.phoneMatches
  have hbonus : (0 : ℚ) ≤ min ((totalConnectionCount inp : ℚ) * (1/50)) (1/5) :=
    le_min (by positivity) (by norm_num)
  simp only [check_network_connections, ratMin_eq_min]
  exact ⟨le_min (by linarith) (by norm_num), min_le_right _ _⟩

theorem fraudProbability_pos (w : ℚ) : 0 < fraudProbability w := by
  have h := Real.exp_pos (-(w : ℝ))
  unfold fraudProbability
  positivity

theorem fraudProbability_lt_one (w : ℚ) : fraudProbability w < 1 := by
  have h := Real.exp_pos (-(w : ℝ))
  unfold fraudProbability
  rw [div_lt_one (by linarith)]
  linarith

theorem mlScoreOfFeatures_bounds (f : MLFeatures) :
    1/20 ≤ mlScoreOfFeatures f ∧ mlScoreOfFeatures f ≤ 1 := by
  have h1 := fraudProbability_pos (mlWeightedSum f)
  have h2 := fraudProbability_lt_one (mlWeightedSum f)
  unfold mlScoreOfFeatures
  constructor <;> nlinarith

theorem delayContribution_of_neg {d : Int} (h : d < 0) :
    delayContribution d = ([.reportedBeforeIncident], 4/5) := by
  simp [delayContribution, h]

/-! ## Bridges between the aggregation loop and its declarative reading -/

theorem mem_insertType {ts : List String} {x t : String} :
    t ∈ insertType ts x ↔ t ∈ ts ∨ t = x := by
  unfold insertType
  split_ifs with h
  · constructor
    · exact Or.inl
    · rintro (h' | rfl)
      · exact h'
      · exact h
  · simp [List.mem_append]

theorem nodup_insertType {ts : List String} (x : String) (h : ts.Nodup) :
    (insertType ts x).Nodup := by
  unfold insertType
  split_ifs with hx
  · exact h
  · simp [List.nodup_append, h, hx]

theorem mem_foldl_insertType (docs : List ClaimDocument) (acc : List String) (t : String) :
    (t ∈ docs.foldl (fun ts d => insertType ts (docType d)) acc)
      ↔ t ∈ acc ∨ t ∈ docs.map docType := by
  induction docs generalizing acc with
  | nil => simp
  | cons d ds ih =>
    simp only [List.foldl_cons, List.map_cons, List.mem_cons]
    rw [ih, mem_insertType]
    tauto

theorem nodup_foldl_insertType (docs : List ClaimDocument) (acc : List String)
    (h : acc.Nodup) :
    (docs.foldl (fun ts d => insertType ts (docType d)) acc).Nodup := by
  induction docs generalizing acc with
  | nil => simpa
  | cons d ds ih => exact ih _ (nodup_insertType _ h)

theorem mem_docTypesAgg (docs : List ClaimDocument) (t : String) :
    t ∈ docTypesAgg docs ↔ t ∈ docs.map docType := by
  unfold docTypesAgg
  rw [mem_foldl_insertType]
  simp

theorem docTypesAgg_nodup (docs : List ClaimDocument) : (docTypesAgg docs).Nodup :=
  nodup_foldl_insertType docs [] List.nodup_nil

/-- The loop-built type set has as many elements as the distinct types. -/
theorem length_docTypesAgg (docs : List ClaimDocument) :
    (docTypesAgg docs).length = ((docs.map docType).dedup).length := by
  have h3 : ∀ a, a ∈ docTypesAgg docs ↔ a ∈ (docs.map docType).dedup := by
    intro a
    rw [List.mem_dedup]
    exact mem_docTypesAgg docs a
  exact List.Perm.length_eq
    ((List.perm_ext_iff_of_nodup (docTypesAgg_nodup docs)
      (List.nodup_dedup _)).mpr h3)

/-- The loop-accumulated size equals the sum of the sizes. -/
theorem totalSizeAgg_eq_sum (docs : List ClaimDocument) :
    totalSizeAgg docs = (docs.map docSize).sum := by
  have key : ∀ (l : List ClaimDocument) (a : ℚ),
      l.foldl (fun s d => s + docSize d) a = a + (l.map docSize).sum := by
    intro l
    induction l with
    | nil => simp
    | cons d ds ih =>
      intro a
      simp [ih, add_assoc]
  simpa [totalSizeAgg] using key docs 0

/-- The privileged-type tally counts the required types present among the
document types. -/
theorem requiredTypesFound_eq (docs : List ClaimDocument) :
    requiredTypesFound docs
      = (requiredTypes.filter (fun t => t ∈ docs.map docType)).length := by
  unfold requiredTypesFound
  congr 1
  refine List.filter_congr fun t _ => ?_
  exact decide_eq_decide.mpr (mem_docTypesAgg docs t)

/-! ## Claim theorems -/

/-- C1, counterexample: the network scorer's base score is 0.0, not 0.05;
with no phone, provider or cluster input its final score is 0.0, strictly
below the claimed 0.05 lower bound. -/
theorem network_score_zero_counterexample :
    (check_network_connections emptyNetworkInput).score = 0 ∧
    ¬ (1/20 ≤ (check_network_connections emptyNetworkInput).score) := by
  have h : (check_network_connections emptyNetworkInput).score = 0 := by
    norm_num [check_network_connections, emptyNetworkInput, phoneBlock, providerBlock,
      geoBlock, temporalBlock, householdBlock, totalConnectionCount, connectionsFound, ratMin]
  exact ⟨h, by rw [h]; norm_num⟩

/-- C1, amended: for all inputs the history, timing and ML scorers return a
score in [0.05, 1.0]; the network scorer's score lies in [0.0, 1.0] (its
base score is 0.0, so 0.05 is not a lower bound for it). -/
theorem scorer_score_bounds (cs : List HistClaim) (inc rep : Date) (pol : Option Date)
    (f : MLFeatures) (net : NetworkInput) :
    (1/20 ≤ (check_claimant_history cs).score ∧ (check_claimant_history cs).score ≤ 1)
    ∧ (1/20 ≤ (assessTiming inc rep pol).score ∧ (assessTiming inc rep pol).score ≤ 1)
    ∧ (1/20 ≤ mlScoreOfFeatures f ∧ mlScoreOfFeatures f ≤ 1)
    ∧ (0 ≤ (check_network_connections net).score ∧ (check_network_connections net).score ≤ 1) :=
  ⟨check_claimant_history_score_bounds cs, assessTiming_score_bounds inc rep pol,
    mlScoreOfFeatures_bounds f, check_network_connections_score_bounds net⟩

/-- C2, code evaluation: every `create_dynamic_rag_engine` call constructs
a fresh manager with an empty registry, so two sequential calls for the
same claim with a sufficient document set both take the build path: neither
returns the already-active handle, and two engines are built where the
claim demands exactly one. -/
theorem create_twice_builds_two_engines :
    (create_dynamic_rag_engine ⟨0⟩ "CLM-1001" sufficientDocs).2
      = .created ⟨"rag_CLM-1001", "CLM-1001", 3⟩
    ∧ (create_dynamic_rag_engine (create_dynamic_rag_engine ⟨0⟩ "CLM-1001" sufficientDocs).1
        "CLM-1001" sufficientDocs).2 = .created ⟨"rag_CLM-1001", "CLM-1001", 3⟩
    ∧ (create_dynamic_rag_engine (create_dynamic_rag_engine ⟨0⟩ "CLM-1001" sufficientDocs).1
        "CLM-1001" sufficientDocs).1.enginesBuilt = 2 := by
  have hs : should_create_rag sufficientDocs
      = (true, ⟨3, ["police_report", "estimate", "photos"], 6/5, .allMet⟩) := by
    have hlen : sufficientDocs.length = 3 := rfl
    have hsz : totalSizeAgg sufficientDocs = 6/5 := by
      norm_num [totalSizeAgg, sufficientDocs, docSize]
    have hty : docTypesAgg sufficientDocs = ["police_report", "estimate", "photos"] := by
      simp +decide [docTypesAgg, sufficientDocs, insertType, docType]
    have hrq : requiredTypesFound sufficientDocs = 3 := by
      simp +decide [requiredTypesFound, requiredTypes, hty]
    norm_num [should_create_rag, hlen, hsz, hty, hrq]
  have hlen3 : sufficientDocs.length = 3 := rfl
  have hone : ∀ w : OrchestratorWorld, create_dynamic_rag_engine w "CLM-1001" sufficientDocs
      = (⟨w.enginesBuilt + 1⟩, .created ⟨"rag_CLM-1001", "CLM-1001", 3⟩) := by
    intro w
    simp +decide [create_dynamic_rag_engine, DynamicRAGManager.mkFresh, hs, hlen3]
  simp [hone]

/-- C3, confirmed: `should_create_rag` answers true exactly when all four
§4.1 thresholds hold: at least 3 documents, at least 2 distinct types, at
least 2 of the three privileged types present, and at least 1.0 MB total
size. -/
theorem should_create_rag_ready_iff (docs : List ClaimDocument) :
    (should_create_rag docs).1 = true ↔
      (3 ≤ docs.length ∧ 2 ≤ ((docs.map docType).dedup).length
        ∧ 2 ≤ (requiredTypes.filter (fun t => t ∈ docs.map docType)).length
        ∧ 1 ≤ (docs.map docSize).sum) := by
  have hT := length_docTypesAgg docs
  have hR := requiredTypesFound_eq docs
  have hS := totalSizeAgg_eq_sum docs
  simp only [should_create_rag]
  rcases eq_or_ne docs.length 0 with h0 | h0
  · rw [if_pos h0]
    simp [h0]
  · rw [if_neg h0, hT, hR, hS]
    split_ifs <;>
      first
        | exact iff_of_true rfl ⟨by omega, by omega, by omega, by linarith⟩
        | exact iff_of_false (by simp)
            (by rintro ⟨a1, a2, a3, a4⟩; first | omega | linarith)

/-- C4, code evaluation: for an incident 4 days after the policy effective
date the source's `days_after_effective <= 30` branch shadows its own
`<= 7` branch, so the applied penalty is the +0.20 `earlyClaim` one, never
the +0.30 `immediateClaim` one the claim describes: the full run on
incident 2025-06-05, report 2025-06-06, effective 2025-06-01 scores 0.25.
-/
theorem early_claim_shadows_immediate_claim :
    policyContribution 4 = ([.earlyClaim 4], 1/5)
    ∧ analyze_incident_timing "2025-06-05" "2025-06-06" (some "2025-06-01")
      = .ok { reportingDelay := 1, indicators := [.earlyClaim 4], riskFactors := [],
              score := 1/4, riskLevel := .LOW } := by
  constructor
  · norm_num [policyContribution]
  · have hp1 : parseDate "2025-06-05" = some ⟨2025, 6, 5⟩ := by decide
    have hp2 : parseDate "2025-06-06" = some ⟨2025, 6, 6⟩ := by decide
    have hp3 : parseDate "2025-06-01" = some ⟨2025, 6, 1⟩ := by decide
    have hd : (dateOrdinal ⟨2025, 6, 6⟩ : Int) - (dateOrdinal ⟨2025, 6, 5⟩ : Int) = 1 := by decide
    have he : (dateOrdinal ⟨2025, 6, 5⟩ : Int) - (dateOrdinal ⟨2025, 6, 1⟩ : Int) = 4 := by decide
    have hw1 : weekday ⟨2025, 6, 5⟩ = 3 := by decide
    have hw2 : weekday ⟨2025, 6, 6⟩ = 4 := by decide
    simp only [analyze_incident_timing, hp1, hp2, hp3, assessTiming, policyPart, hd, he]
    norm_num [delayContribution, policyContribution, riskFactorContribution, hw1, hw2,
      riskLevelOf, ratMin]

/-- C6, counterexample: a document set failing only the privileged-types
threshold receives the `needRequiredTypes` reason, which names the
requirement but carries no observed value, so the "observed versus
required values" part of the claim fails. -/
theorem privileged_reason_lacks_observed_value :
    (should_create_rag privilegedFailDocs).1 = false
    ∧ (should_create_rag privilegedFailDocs).2.reason = .needRequiredTypes 2 requiredTypes
    ∧ reasonHasObservedAndRequired (should_create_rag privilegedFailDocs).2.reason = false := by
  have hres : should_create_rag privilegedFailDocs
      = (false, ⟨3, ["medical_record", "audio"], 3, .needRequiredTypes 2 requiredTypes⟩) := by
    have hlen : privilegedFailDocs.length = 3 := rfl
    have hsz : totalSizeAgg privilegedFailDocs = 3 := by
      norm_num [totalSizeAgg, privilegedFailDocs, docSize]
    have hty : docTypesAgg privilegedFailDocs = ["medical_record", "audio"] := by
      simp +decide [docTypesAgg, privilegedFailDocs, insertType, docType]
    have hrq : requiredTypesFound privilegedFailDocs = 0 := by
      simp +decide [requiredTypesFound, requiredTypes, hty]
    norm_num [should_create_rag, hlen, hsz, hty, hrq]
  rw [hres]
  exact ⟨rfl, rfl, rfl⟩

/-- C6, amended: the failure reason always corresponds to the first unmet
threshold in the fixed order (document count, type diversity, privileged
types, total size); the count, diversity and size reasons carry observed vs
required values, the privileged-types reason names only the requirement,
and an empty document set gets the distinct no-documents reason, which is
of document-count kind. -/
theorem reason_names_first_unmet_threshold (docs : List ClaimDocument) :
    (should_create_rag docs).2.reason = specExpectedReason docs
    ∧ reasonThresholdKind (specExpectedReason docs) = specFirstUnmet docs := by
  have hT := length_docTypesAgg docs
  have hR := requiredTypesFound_eq docs
  have hS := totalSizeAgg_eq_sum docs
  constructor
  · simp only [should_create_rag, specExpectedReason]
    rcases eq_or_ne docs.length 0 with h0 | h0
    · rw [if_pos h0, if_pos h0]
    · rw [if_neg h0, if_neg h0, hT, hR, hS]
      split_ifs <;> rfl
  · unfold specExpectedReason specFirstUnmet
    rcases eq_or_ne docs.length 0 with h0 | h0
    · rw [if_pos h0, if_pos (show docs.length < 3 by omega)]
      rfl
    · rw [if_neg h0]
      split_ifs <;> rfl

/-- C7, confirmed: whenever the report date precedes the incident date the
delay is negative, the critical +0.80 `reportedBeforeIncident` indicator is
raised, and the final score is at least 0.70, giving tier HIGH. -/
theorem report_before_incident_scores_high (inc rep : Date) (pol : Option Date)
    (h : dateOrdinal rep < dateOrdinal inc) :
    TimingIndicator.reportedBeforeIncident ∈ (assessTiming inc rep pol).indicators
    ∧ 7/10 ≤ (assessTiming inc rep pol).score
    ∧ (assessTiming inc rep pol).riskLevel = .HIGH := by
  have hd : ((dateOrdinal rep : Int) - (dateOrdinal inc : Int)) < 0 := by omega
  have h2 := policyPart_snd_nonneg inc pol
  have h3 := riskFactorContribution_snd_nonneg inc rep
    ((dateOrdinal rep : Int) - (dateOrdinal inc : Int))
  have hscore : 7/10 ≤ (assessTiming inc rep pol).score := by
    simp only [assessTiming, delayContribution_of_neg hd, ratMin_eq_min]
    exact le_min (by linarith) (by norm_num)
  refine ⟨?_, hscore, ?_⟩
  · simp [assessTiming, delayContribution_of_neg hd]
  · exact riskLevelOf_eq_HIGH hscore

/-- C7 witness: the claim's own example, incident 2025-01-20 reported
2025-01-15. -/
theorem report_before_incident_scores_high_witness :
    TimingIndicator.reportedBeforeIncident
      ∈ (assessTiming ⟨2025, 1, 20⟩ ⟨2025, 1, 15⟩ none).indicators
    ∧ 7/10 ≤ (assessTiming ⟨2025, 1, 20⟩ ⟨2025, 1, 15⟩ none).score
    ∧ (assessTiming ⟨2025, 1, 20⟩ ⟨2025, 1, 15⟩ none).riskLevel = .HIGH :=
  report_before_incident_scores_high ⟨2025, 1, 20⟩ ⟨2025, 1, 15⟩ none (by decide)

/-- C8, confirmed: whenever any of the supplied date strings fails to
parse, `analyze_incident_timing` returns the InvalidFormat error result
carrying the expected-format explanation instead of raising. -/
theorem malformed_dates_give_invalid_format (i r : String) (p : Option String)
    (h : parseDate i = none ∨ parseDate r = none
      ∨ ∃ ps, p = some ps ∧ parseDate ps = none) :
    analyze_incident_timing i r p = .error (.invalidFormat expectedDateFormat) := by
  unfold analyze_incident_timing
  rcases h with h | h | ⟨ps, rfl, hps⟩
  · simp [h]
  · cases hi : parseDate i <;> simp [hi, h]
  · cases hi : parseDate i <;> cases hr : parseDate r <;> simp [hi, hr, hps]

/-- C8 witness: a malformed incident date. -/
theorem malformed_dates_give_invalid_format_witness :
    analyze_incident_timing "not-a-date" "2025-01-15" none
      = .error (.invalidFormat expectedDateFormat) :=
  malformed_dates_give_invalid_format "not-a-date" "2025-01-15" none (Or.inl (by decide))

/-- C9, confirmed: the ML-style score is a function of the extracted
feature vector alone; two claim-data inputs with identical features (even
under different identifiers) receive identical scores. -/
theorem ml_score_deterministic (cd₁ cd₂ : ClaimData)
    (h : extractMLFeatures cd₁ = extractMLFeatures cd₂) :
    calculate_ml_fraud_score cd₁ = calculate_ml_fraud_score cd₂ := by
  unfold calculate_ml_fraud_score
  rw [h]

/-- C9 witness: the same features under different claim and policy ids. -/
theorem ml_score_deterministic_witness :
    calculate_ml_fraud_score mlClaimA = calculate_ml_fraud_score mlClaimB :=
  ml_score_deterministic mlClaimA mlClaimB (by decide)

/-- C5, counterexample: three claims within 30 days in the same city with
mixed types, ordinary delays and ordinary amounts score exactly 0.35: the
geographic-clustering +0.20 needs strictly more than 3 claims, so the
claimed 0.55 floor fails. -/
theorem three_claims_score_counterexample :
    threeClaimsSameCity.length = 3
    ∧ (∀ c ∈ threeClaimsSameCity, c.days_ago ≤ 30)
    ∧ (geographicSpread threeClaimsSameCity).length = 1
    ∧ (check_claimant_history threeClaimsSameCity).score = 7/20
    ∧ ¬ (11/20 ≤ (check_claimant_history threeClaimsSameCity).score) := by
  have hlen : threeClaimsSameCity.length = 3 := rfl
  have h30 : recentClaims30d threeClaimsSameCity = 3 := by decide
  have hgeoList : geographicSpread threeClaimsSameCity = ["Springfield, IL"] := by decide
  have hmax : maxClaimTypeCount threeClaimsSameCity = 1 := by decide
  have hds : reportingDelays threeClaimsSameCity = [5, 5, 5] := by decide
  have hdel : avgReportingDelay threeClaimsSameCity = 5 := by
    norm_num [avgReportingDelay, hds, List.foldl_cons, List.foldl_nil]
  have hdmg : totalDamage threeClaimsSameCity = 3100 := by
    norm_num [totalDamage, threeClaimsSameCity, List.filterMap_cons, List.foldl_cons,
      List.foldl_nil]
  have havg : avgClaimAmount threeClaimsSameCity = 3100/3 := by
    norm_num [avgClaimAmount, hdmg, hlen]
  have hscore : (check_claimant_history threeClaimsSameCity).score = 7/20 := by
    have b1 : historyFrequency threeClaimsSameCity = ([.highFrequency], 3/10) := by
      simp [historyFrequency, h30]
    have b2 : historyDelayPattern threeClaimsSameCity = ([], 0) := by
      norm_num [historyDelayPattern, hdel]
    have b3 : historyGeoClustering threeClaimsSameCity = ([], 0) := by
      simp [historyGeoClustering, hlen]
    have b4 : historyHighValue threeClaimsSameCity = ([], 0) := by
      norm_num [historyHighValue, havg]
    have b5 : historyRepetitiveType threeClaimsSameCity = ([], 0) := by
      norm_num [historyRepetitiveType, hmax, hlen]
    norm_num [check_claimant_history, hlen, b1, b2, b3, b4, b5, ratMin]
  refine ⟨hlen, by decide, by rw [hgeoList]; rfl, hscore, ?_⟩
  rw [hscore]
  norm_num

/-- C5, amended: with exactly 3 claims all within the last 30 days at one
location, the frequency penalty fires and the score is at least
0.05 + 0.30 = 0.35, while the geographic-clustering penalty contributes 0
because it requires strictly more than 3 total claims. -/
theorem three_recent_claims_score_floor (cs : List HistClaim)
    (hlen : cs.length = 3)
    (hrecent : ∀ c ∈ cs, c.days_ago ≤ 30)
    (_hgeo : (geographicSpread cs).length = 1) :
    7/20 ≤ (check_claimant_history cs).score
    ∧ (historyGeoClustering cs).2 = 0 := by
  have hne : cs.length ≠ 0 := by omega
  have h30 : recentClaims30d cs = 3 := by
    unfold recentClaims30d
    rw [List.filter_eq_self.mpr fun a ha => decide_eq_true (hrecent a ha)]
    exact hlen
  have hfreq : historyFrequency cs = ([.highFrequency], 3/10) := by
    simp [historyFrequency, h30]
  have hgeo0 : historyGeoClustering cs = ([], 0) := by
    simp [historyGeoClustering, hlen]
  have h2 := historyDelayPattern_snd_nonneg cs
  have h4 := historyHighValue_snd_nonneg cs
  have h5 := historyRepetitiveType_snd_nonneg cs
  refine ⟨?_, by simp [hgeo0]⟩
  simp only [check_claimant_history, if_neg hne, hfreq, hgeo0, ratMin_eq_min]
  exact le_min (by norm_num; linarith) (by norm_num)

/-- C5 witness: the amended floor at the concrete three-claim history. -/
theorem three_recent_claims_score_floor_witness :
    7/20 ≤ (check_claimant_history threeClaimsSameCity).score
    ∧ (historyGeoClustering threeClaimsSameCity).2 = 0 :=
  three_recent_claims_score_floor threeClaimsSameCity rfl (by decide) (by decide)

/-- C10, confirmed: after any sequence of sequential engine-creation calls,
`query_rag_engine` still reports RAG ENGINE NOT FOUND for every claim and
question, because the fresh manager it constructs has an empty registry. -/
theorem query_after_creates_not_found (calls : List (String × List ClaimDocument))
    (claim_id question : String) :
    query_rag_engine (runCreates calls) claim_id question
      = .notFound claim_id question := rfl

end Yantra
